import Mathlib

/-!
Verification of the qontinui-web-mcp adapter against its specification.

The development shallowly embeds the adapter logic:
* JSON-like dynamic values (`Json`) model the Python `dict[str, Any]`
  configuration documents and tool arguments;
* the HTTP layer is modelled by passing the response (or transport
  failure) as an explicit argument; raised Python exceptions become an
  explicit `Except PyExc` result;
* the backend service that stores a project is modelled as a state record
  threaded through each operation.
-/

/-- Dynamic JSON-like values, modelling Python objects that appear in
configuration documents and tool arguments.  Python ints are `num`,
Python floats are `fnum` (only exact literals such as 0.0 occur in the
code, so a rational carrier is faithful here). -/
inductive Json where
  | null
  | bool (b : Bool)
  | num (n : Int)
  | fnum (q : Rat)
  | str (s : String)
  | arr (elems : List Json)
  | obj (fields : List (String × Json))
deriving Repr

/-- Python `dict` lookup on an association list (dicts in this code base
have unique keys, which `setField` below preserves). -/
def lookupField : List (String × Json) → String → Option Json
  | [], _ => none
  | (k, v) :: rest, key => if k == key then some v else lookupField rest key

/-- Python `d[key] = v`: replace the value of an existing key in place,
otherwise append the new binding (insertion order semantics). -/
def setField : List (String × Json) → String → Json → List (String × Json)
  | [], key, v => [(key, v)]
  | (k, w) :: rest, key, v =>
    if k == key then (k, v) :: rest else (k, w) :: setField rest key v

/-- Python truthiness test (`if not x`). -/
def Json.falsy : Json → Bool
  | .null => true
  | .bool b => !b
  | .num n => n == 0
  | .fnum q => q == 0
  | .str s => s == ""
  | .arr xs => xs.isEmpty
  | .obj fs => fs.isEmpty

/-- Truthiness of a `dict.get` result, where a missing key yields
Python `None`. -/
def optFalsy : Option Json → Bool
  | none => true
  | some v => v.falsy

/-- Numeric view used by Python `==`: bools and numbers compare by
numeric value (`True == 1`, `1 == 1.0`). -/
def numView : Json → Option Rat
  | .bool b => some (if b then 1 else 0)
  | .num n => some (n : Rat)
  | .fnum q => some q
  | _ => none

/-- Numeric cross-type equality fragment of Python `==`. -/
def numEq (a b : Json) : Bool :=
  match numView a, numView b with
  | some x, some y => x == y
  | _, _ => false

mutual
/-- Python `==` on JSON-like values: structural on strings, lists and
dicts (dict comparison ignores key order), numeric across
bool/int/float, `None == None`, and `False` across kinds. -/
def pyEq : Json → Json → Bool
  | .str a, .str b => a == b
  | .null, .null => true
  | .arr a, .arr b => pyEqList a b
  | .obj a, .obj b => a.length == b.length && pyEqFields a b
  | a, b => numEq a b

def pyEqList : List Json → List Json → Bool
  | [], [] => true
  | x :: xs, y :: ys => pyEq x y && pyEqList xs ys
  | _, _ => false

def pyEqFields : List (String × Json) → List (String × Json) → Bool
  | [], _ => true
  | (k, v) :: rest, b =>
    (match lookupField b k with
     | some w => pyEq v w
     | none => false) && pyEqFields rest b
end

/-- Rendering of a Python float (only exact values occur in the code). -/
def floatStr (q : Rat) : String :=
  if q.den == 1 then toString q.num ++ ".0" else toString q

mutual
/-- Python `repr` of a JSON-like value (string escaping inside `repr`
is not modelled; no message in the claims contains such a string). -/
def pyRepr : Json → String
  | .null => "None"
  | .bool true => "True"
  | .bool false => "False"
  | .num n => toString n
  | .fnum q => floatStr q
  | .str s => "\x27" ++ s ++ "\x27"
  | .arr xs => "[" ++ pyReprList xs ++ "]"
  | .obj fs => "\x7b" ++ pyReprFields fs ++ "\x7d"

def pyReprList : List Json → String
  | [] => ""
  | [x] => pyRepr x
  | x :: xs => pyRepr x ++ ", " ++ pyReprList xs

def pyReprFields : List (String × Json) → String
  | [] => ""
  | [(k, v)] => "\x27" ++ k ++ "\x27: " ++ pyRepr v
  | (k, v) :: rest => "\x27" ++ k ++ "\x27: " ++ pyRepr v ++ ", " ++ pyReprFields rest
end

/-- Python `str(x)` as used by f-string interpolation: identical to
`repr` except on top-level strings. -/
def pyStr : Json → String
  | .str s => s
  | v => pyRepr v

/-! ## Python exceptions raised by the client (`client/api.py`) -/

/-- The exceptions that the client layer can raise.  The first four are
the classes declared in `client/api.py` (all subclasses of
`QontinuiClientError`, each optionally carrying an HTTP status code).
The remaining constructors are plain Python exceptions that escape the
client: a JSON decoding failure from `response.json()`, an attribute or
type error from operating on an unexpectedly shaped value, a `ValueError`
from `UUID(...)`, an unwrapped `httpx` transport error, and a pydantic
model-validation failure. -/
inductive PyExc where
  | qontinuiClientError (msg : String) (status : Option Nat)
  | authenticationError (msg : String) (status : Option Nat)
  | notFoundError (msg : String) (status : Option Nat)
  | validationError (msg : String) (status : Option Nat)
  | jsonDecodeError (msg : String)
  | attributeError (msg : String)
  | typeError (msg : String)
  | valueError (msg : String)
  | httpxRequestError (msg : String)
  | pydanticError (msg : String)
deriving Repr, DecidableEq

/-- Python `str(e)` on an exception: its message. -/
def PyExc.message : PyExc → String
  | .qontinuiClientError m _ => m
  | .authenticationError m _ => m
  | .notFoundError m _ => m
  | .validationError m _ => m
  | .jsonDecodeError m => m
  | .attributeError m => m
  | .typeError m => m
  | .valueError m => m
  | .httpxRequestError m => m
  | .pydanticError m => m

/-! ## Request executor (`QontinuiClient._request`) -/

/-- An HTTP response as observed by the client: the status code, the raw
body text (`response.text`, empty iff `response.content` is empty) and
the result of parsing the body as JSON (`none` when `response.json()`
would raise a decode error). -/
structure HttpResponse where
  status : Nat
  text : String
  jsonBody : Option Json
deriving Repr

/-- The message of the `json.JSONDecodeError` raised by `response.json()`
on a body that is not JSON. -/
def jsonDecodeMsg : String := "Expecting value: line 1 column 1 (char 0)"

/-- Model of `QontinuiClient._request` from `client/api.py`.  The network call is
passed in as `outcome`: `.error e` models `httpx` raising a transport
error (which the code wraps into a `QontinuiClientError`), `.ok r` a
received response.  Status branches follow the source exactly; the
`detail` extraction in the 422 branch calls `response.json().get(...)`
unguarded, while the generic >= 400 branch guards it with try/except. -/
def request (path : String) (outcome : Except String HttpResponse) :
    Except PyExc Json :=
  match outcome with
  | .error e => .error (.qontinuiClientError ("Request failed: " ++ e) none)
  | .ok r =>
    if r.status == 401 then
      .error (.authenticationError "Authentication failed. Please login again." (some 401))
    else if r.status == 404 then
      .error (.notFoundError ("Resource not found: " ++ path) (some 404))
    else if r.status == 422 then
      match r.jsonBody with
      | none => .error (.jsonDecodeError jsonDecodeMsg)
      | some (.obj fs) =>
        .error (.validationError
          ("Validation error: " ++ pyStr ((lookupField fs "detail").getD (.str "Validation error")))
          (some 422))
      | some _ => .error (.attributeError "object has no attribute get")
    else if r.status >= 400 then
      let detail :=
        match r.jsonBody with
        | some (.obj fs) => pyStr ((lookupField fs "detail").getD (.str r.text))
        | _ => r.text
      .error (.qontinuiClientError
        ("API error (" ++ toString r.status ++ "): " ++ detail) (some r.status))
    else if r.status == 204 || r.text == "" then
      .ok (.obj [])
    else
      match r.jsonBody with
      | some j => .ok j
      | none => .error (.jsonDecodeError jsonDecodeMsg)

/-! ## Session state and login (`QontinuiClient.login`) -/

/-- The client session slice relevant to authentication: the optional
stored bearer token (`self._access_token`). -/
structure ClientState where
  accessToken : Option String
deriving Repr, DecidableEq

/-- Model of `QontinuiClient.is_authenticated`: Python `bool(self._access_token)`
(both `None` and the empty string are falsy). -/
def isAuthenticated (c : ClientState) : Bool :=
  match c.accessToken with
  | none => false
  | some t => t != ""

/-- Outcome of the login POST: either the transport raised, or a
response arrived. -/
inductive LoginOutcome where
  | transportError (msg : String)
  | response (r : HttpResponse)
deriving Repr

/-- Model of `AuthTokens(**response.json())`: requires a JSON object with a
string `access_token` field (pydantic; extra fields ignored, failures
raise). -/
def parseAuthTokens : Option Json → Except PyExc String
  | some (.obj fs) =>
    match lookupField fs "access_token" with
    | some (.str t) => .ok t
    | _ => .error (.pydanticError "validation error for AuthTokens")
  | some _ => .error (.typeError "argument after ** must be a mapping")
  | none => .error (.jsonDecodeError jsonDecodeMsg)

/-- Model of `QontinuiClient.login` from `client/api.py`.  Returns the raised
exception or the token, together with the client state afterwards.  On a
non-200 response it raises `AuthenticationError` (detail from the JSON
body when it is an object with the lookup defaulting to a generic
message, otherwise the raw text, matching the try/except in the source);
the stored token is assigned only after a successful parse. -/
def login (c : ClientState) (o : LoginOutcome) :
    Except PyExc String × ClientState :=
  match o with
  | .transportError m => (.error (.httpxRequestError m), c)
  | .response r =>
    if r.status != 200 then
      let detail :=
        match r.jsonBody with
        | some (.obj fs) => pyStr ((lookupField fs "detail").getD (.str "Login failed"))
        | _ => r.text
      (.error (.authenticationError ("Login failed: " ++ detail) (some 401)), c)
    else
      match parseAuthTokens r.jsonBody with
      | .error e => (.error e, c)
      | .ok t => (.ok t, { c with accessToken := some t })

/-! ## Backend state and nested-collection operations (`client/api.py`) -/

/-- Modelled from the spec: the backend REST service (not part of this
repository) stores one configuration document per project and applies a
project update as a full replacement of that document, with no version
or ETag precondition.  `Backend` holds the document of the one project
the claims operate on, plus a count of the update-project PUT calls that
have been issued against it.  Pydantic guarantees `Project.configuration`
is a dict, hence the association-list carrier. -/
structure Backend where
  configuration : List (String × Json)
  updateProjectCalls : Nat
deriving Repr

/-- Model of `QontinuiClient.update_project`: PUT the new configuration; the
backend replaces the document (full replacement, last write wins). -/
def update_project (b : Backend) (config : List (String × Json)) : Backend :=
  { configuration := config, updateProjectCalls := b.updateProjectCalls + 1 }

/-- Model of `config.get(key, [])` followed by use as a list: yields the stored
array, or the empty list when the field is absent.  A non-list value in
the field makes the subsequent list operation raise in Python; that
failure mode is collapsed into a single raised error here. -/
def getArrField (config : List (String × Json)) (key : String) :
    Except PyExc (List Json) :=
  match lookupField config key with
  | none => .ok []
  | some (.arr xs) => .ok xs
  | some _ => .error (.attributeError (key ++ " field is not a list"))

/-- The list comprehension `[w for w in ws if w.get("id") != target]`:
keeps the elements whose `id` differs from the target, raising an
`AttributeError` when an element is not a dict. -/
def pyFilterNotId : List Json → Json → Except PyExc (List Json)
  | [], _ => .ok []
  | .obj fs :: ts, target =>
    match pyFilterNotId ts target with
    | .error e => .error e
    | .ok rest =>
      if pyEq ((lookupField fs "id").getD .null) target then .ok rest
      else .ok (.obj fs :: rest)
  | _ :: _, _ => .error (.attributeError "object has no attribute get")

/-- The for/else scan of the update operations: replace the first
element whose `id` equals the target and stop; `none` when no element
matches (the for-else branch); raises when an element is not a dict. -/
def pyScanReplace : List Json → Json → Json → Except PyExc (Option (List Json))
  | [], _, _ => .ok none
  | .obj fs :: ws, target, new =>
    if pyEq ((lookupField fs "id").getD .null) target then .ok (some (new :: ws))
    else
      match pyScanReplace ws target new with
      | .error e => .error e
      | .ok none => .ok none
      | .ok (some ws2) => .ok (some (.obj fs :: ws2))
  | _ :: _, _, _ => .error (.attributeError "object has no attribute get")

/-- Model of `QontinuiClient.get_workflows`: fetch the project and return
`configuration.get("workflows", [])` verbatim (the `list` annotation is
not enforced at runtime). -/
def get_workflows (b : Backend) : Json :=
  (lookupField b.configuration "workflows").getD (.arr [])

/-- The read-and-compute phase of `QontinuiClient.add_workflow`: fetch
the configuration, append the record to the `workflows` array, and
produce the full document to be written back. -/
def add_workflow_config (config : List (String × Json)) (workflow : Json) :
    Except PyExc (List (String × Json)) :=
  match getArrField config "workflows" with
  | .error e => .error e
  | .ok ws => .ok (setField config "workflows" (.arr (ws ++ [workflow])))

/-- Model of `QontinuiClient.add_workflow`: read-modify-write with no duplicate
check and no concurrency precondition. -/
def add_workflow (b : Backend) (workflow : Json) : Except PyExc Unit × Backend :=
  match add_workflow_config b.configuration workflow with
  | .error e => (.error e, b)
  | .ok c => (.ok (), update_project b c)

/-- Model of `QontinuiClient.update_workflow`: linear scan for the first element
with the target `id`; replace it, or raise `NotFoundError` before any
write when no element matches. -/
def update_workflow (b : Backend) (workflow_id : String) (workflow : Json) :
    Except PyExc Unit × Backend :=
  match getArrField b.configuration "workflows" with
  | .error e => (.error e, b)
  | .ok ws =>
    match pyScanReplace ws (.str workflow_id) workflow with
    | .error e => (.error e, b)
    | .ok none => (.error (.notFoundError ("Workflow not found: " ++ workflow_id) none), b)
    | .ok (some ws2) =>
      (.ok (), update_project b (setField b.configuration "workflows" (.arr ws2)))

/-- Model of `QontinuiClient.delete_workflow`: rebuild the array without the
matching elements and write back unconditionally (a delete of a
nonexistent id is a silent no-op write). -/
def delete_workflow (b : Backend) (workflow_id : String) :
    Except PyExc Unit × Backend :=
  match getArrField b.configuration "workflows" with
  | .error e => (.error e, b)
  | .ok ws =>
    match pyFilterNotId ws (.str workflow_id) with
    | .error e => (.error e, b)
    | .ok ws2 =>
      (.ok (), update_project b (setField b.configuration "workflows" (.arr ws2)))

/-- Model of `QontinuiClient.get_states`: `configuration.get("states", [])`. -/
def get_states (b : Backend) : Json :=
  (lookupField b.configuration "states").getD (.arr [])

/-- Model of `QontinuiClient.add_state`: same read-modify-write as
`add_workflow`, on the `states` array. -/
def add_state (b : Backend) (state : Json) : Except PyExc Unit × Backend :=
  match getArrField b.configuration "states" with
  | .error e => (.error e, b)
  | .ok ss =>
    (.ok (), update_project b (setField b.configuration "states" (.arr (ss ++ [state]))))

/-- Model of `QontinuiClient.update_state`: scan-and-replace on the `states`
array, raising `NotFoundError` before any write when no id matches. -/
def update_state (b : Backend) (state_id : String) (state : Json) :
    Except PyExc Unit × Backend :=
  match getArrField b.configuration "states" with
  | .error e => (.error e, b)
  | .ok ss =>
    match pyScanReplace ss (.str state_id) state with
    | .error e => (.error e, b)
    | .ok none => (.error (.notFoundError ("State not found: " ++ state_id) none), b)
    | .ok (some ss2) =>
      (.ok (), update_project b (setField b.configuration "states" (.arr ss2)))

/-- Model of `QontinuiClient.delete_state`: unconditional filtered write-back on
the `states` array. -/
def delete_state (b : Backend) (state_id : String) :
    Except PyExc Unit × Backend :=
  match getArrField b.configuration "states" with
  | .error e => (.error e, b)
  | .ok ss =>
    match pyFilterNotId ss (.str state_id) with
    | .error e => (.error e, b)
    | .ok ss2 =>
      (.ok (), update_project b (setField b.configuration "states" (.arr ss2)))

/-- Model of `QontinuiClient.delete_image`: unconditional filtered write-back on
the `images` array. -/
def delete_image (b : Backend) (image_id : String) :
    Except PyExc Unit × Backend :=
  match getArrField b.configuration "images" with
  | .error e => (.error e, b)
  | .ok is2 =>
    match pyFilterNotId is2 (.str image_id) with
    | .error e => (.error e, b)
    | .ok is3 =>
      (.ok (), update_project b (setField b.configuration "images" (.arr is3)))

/-- The race scenario of the spec on `add_workflow`: two calls against
the same project both execute their read-and-compute phase on the same
base document before either write is issued; the writes then land in
order.  Composed from the source operation split into
`add_workflow_config` (read phase) and `update_project` (write). -/
def race_add_workflows (b : Backend) (r1 r2 : Json) :
    Except PyExc Unit × Backend :=
  match add_workflow_config b.configuration r1,
        add_workflow_config b.configuration r2 with
  | .ok c1, .ok c2 => (.ok (), update_project (update_project b c1) c2)
  | .error e, _ => (.error e, b)
  | _, .error e => (.error e, b)

/-! ## Tool handlers (`tools/transitions.py`, `tools/configuration.py`) -/

/-- A tool failure result `{"success": False, "error": msg}`. -/
def errResult (msg : String) : Json :=
  .obj [("success", .bool false), ("error", .str msg)]

/-- Model of `UUID(project_id)`: raises `TypeError` when the argument is not a
string; for a string argument, `uuidOk` says whether it parses as a
UUID (the stdlib parser is not re-implemented; the flag is the
observable outcome of that call and raises `ValueError` when false). -/
def checkUUID (v : Option Json) (uuidOk : Bool) : Except PyExc Unit :=
  match v with
  | some (.str _) =>
    if uuidOk then .ok ()
    else .error (.valueError "badly formed hexadecimal UUID string")
  | _ => .error (.typeError "one of the hex, bytes, bytes_le, fields, or int arguments must be given")

/-- The `delete_transition` branch of `handle_transitions_tool`:
validate arguments, fetch the project, rebuild the `transitions` array
without the target id, detect a no-op delete by comparing lengths and
report it as a failure, otherwise write the document back.  Any raised
exception is converted by the handler boundary into
`{"success": False, "error": str(e)}`. -/
def delete_transition_tool (uuidOk : Bool) (args : List (String × Json))
    (b : Backend) : Json × Backend :=
  let pid := lookupField args "project_id"
  if optFalsy pid then (errResult "Project ID is required", b)
  else
    let tid := lookupField args "transition_id"
    if optFalsy tid then (errResult "Transition ID is required", b)
    else
      match checkUUID pid uuidOk with
      | .error e => (errResult e.message, b)
      | .ok _ =>
        let tidv := tid.getD .null
        match getArrField b.configuration "transitions" with
        | .error e => (errResult e.message, b)
        | .ok ts =>
          match pyFilterNotId ts tidv with
          | .error e => (errResult e.message, b)
          | .ok ts2 =>
            if ts2.length == ts.length then
              (.obj [("success", .bool false),
                     ("error", .str ("Transition not found: " ++ pyStr tidv))], b)
            else
              (.obj [("success", .bool true),
                     ("message", .str ("Deleted transition " ++ pyStr tidv))],
               update_project b (setField b.configuration "transitions" (.arr ts2)))

/-- The `create_state` branch of `handle_configuration_tool`: validate
arguments, build the state record with its generated id and defaults,
insert it via `add_state`, and report the new id and name.  The id is
`"state-" + uuid.uuid4().hex[:8]`; the freshly drawn hex digits are
passed in as `hex` since they are the only nondeterministic input. -/
def create_state_tool (hex : String) (uuidOk : Bool)
    (args : List (String × Json)) (b : Backend) : Json × Backend :=
  let pid := lookupField args "project_id"
  if optFalsy pid then (errResult "Project ID is required", b)
  else
    let nm := lookupField args "name"
    if optFalsy nm then (errResult "State name is required", b)
    else
      match checkUUID pid uuidOk with
      | .error e => (errResult e.message, b)
      | .ok _ =>
        let nameVal := nm.getD .null
        let state : Json := .obj
          [("id", .str ("state-" ++ hex)),
           ("name", nameVal),
           ("description", (lookupField args "description").getD .null),
           ("identifyingImages", (lookupField args "identifying_images").getD (.arr [])),
           ("position", .obj [("x", .fnum 0), ("y", .fnum 0)]),
           ("isInitial", (lookupField args "is_initial").getD (.bool false)),
           ("isFinal", (lookupField args "is_final").getD (.bool false))]
        match add_state b state with
        | (.error e, b2) => (errResult e.message, b2)
        | (.ok _, b2) =>
          (.obj [("success", .bool true),
                 ("message", .str ("Created state \x27" ++ pyStr nameVal ++ "\x27")),
                 ("state", .obj [("id", .str ("state-" ++ hex)), ("name", nameVal)])],
           b2)

/-! ## Tool dispatch table and router (`server.py`) -/

/-- Names of the authentication-exempt tools (`AUTH_TOOLS`). -/
def AUTH_TOOL_NAMES : List String := ["auth_login", "auth_status", "auth_logout"]

/-- Names of the project tools (`PROJECTS_TOOLS`). -/
def PROJECTS_TOOL_NAMES : List String :=
  ["list_projects", "create_project", "get_project", "update_project",
   "delete_project"]

/-- Names of the configuration tools (`CONFIGURATION_TOOLS`). -/
def CONFIGURATION_TOOL_NAMES : List String :=
  ["export_configuration", "import_configuration", "validate_configuration",
   "list_workflows", "create_workflow", "update_workflow", "delete_workflow",
   "list_states", "create_state", "update_state", "delete_state",
   "list_images", "add_image", "delete_image"]

/-- Names of the execution tools (`EXECUTION_TOOLS`). -/
def EXECUTION_TOOL_NAMES : List String :=
  ["execute_workflow", "get_execution_status", "cancel_execution"]

/-- Names of the capture tools (`CAPTURE_TOOLS`). -/
def CAPTURE_TOOL_NAMES : List String :=
  ["create_capture_session", "list_capture_sessions", "get_capture_session",
   "upload_capture_screenshot", "add_capture_action",
   "complete_capture_session", "generate_workflow_from_capture",
   "list_learned_workflows", "approve_learned_workflow"]

/-- Names of the variables tools (`VARIABLES_TOOLS`). -/
def VARIABLES_TOOL_NAMES : List String :=
  ["list_variables", "create_variable", "get_variable", "update_variable",
   "delete_variable", "get_variable_history"]

/-- Names of the transitions tools (`TRANSITIONS_TOOLS`). -/
def TRANSITIONS_TOOL_NAMES : List String :=
  ["list_transitions", "create_transition", "update_transition",
   "delete_transition"]

/-- Model of `AUTHENTICATED_TOOL_NAMES`: the union of the six
authentication-required groups. -/
def AUTHENTICATED_TOOL_NAMES : List String :=
  PROJECTS_TOOL_NAMES ++ CONFIGURATION_TOOL_NAMES ++ EXECUTION_TOOL_NAMES ++
  CAPTURE_TOOL_NAMES ++ VARIABLES_TOOL_NAMES ++ TRANSITIONS_TOOL_NAMES

/-- The settings slice the gate consults (`Settings.has_credentials`). -/
structure GateSettings where
  hasCredentials : Bool
deriving Repr

/-- A tool handler as seen by the router: given the tool name, the
argument mapping and the client, it either returns a result dict or
raises, possibly mutating the client session.  The seven concrete
handler groups instantiate this shape. -/
def HandlerFn : Type :=
  String → List (String × Json) → ClientState →
    Except PyExc (List (String × Json)) × ClientState

/-- The seven handler groups imported by `server.py`. -/
structure Handlers where
  auth : HandlerFn
  projects : HandlerFn
  configuration : HandlerFn
  execution : HandlerFn
  capture : HandlerFn
  vars : HandlerFn
  transitions : HandlerFn

/-- Model of `ensure_authenticated` from `server.py`: `None` when the session
already holds a token; otherwise one auto-login attempt when
credentials are configured (`loginResult` is that network call's
outcome, storing the token on success and leaving the client unchanged
on failure); otherwise the structured error directing the caller to
`auth_login`. -/
def ensure_authenticated (c : ClientState) (st : GateSettings)
    (loginResult : Except PyExc String) : Option Json × ClientState :=
  if isAuthenticated c then (none, c)
  else if st.hasCredentials then
    match loginResult with
    | .ok tok => (none, { c with accessToken := some tok })
    | .error e =>
      (some (.obj [("success", .bool false),
                   ("error", .str ("Not authenticated. Auto-login failed: " ++ e.message))]), c)
  else
    (some (.obj [("success", .bool false),
                 ("error", .str "Not authenticated. Use auth_login first.")]), c)

/-- What one routed call produced: the JSON result that is serialized
into the text payload, whether a group handler was actually invoked,
and the client session afterwards. -/
structure CallOutcome where
  result : Json
  handlerInvoked : Bool
  client : ClientState
deriving Repr

/-- Invoke one handler group under the router's exception boundary: a
raised exception becomes `{"success": False, "error": str(e)}`. -/
def runHandler (f : HandlerFn) (name : String) (args : List (String × Json))
    (c : ClientState) : CallOutcome :=
  match f name args c with
  | (.ok r, c2) => ⟨.obj r, true, c2⟩
  | (.error e, c2) => ⟨.obj [("success", .bool false), ("error", .str e.message)], true, c2⟩

/-- Model of `call_tool` from `server.py`: auth tools dispatch directly; all
other known tools pass the authentication gate first (its failure
result is returned without invoking the handler); unknown names yield
`{"error": "Unknown tool: ..."}`.  The dispatch chain inside the
authenticated branch mirrors the source, including its unreachable
fallback arm. -/
def call_tool (h : Handlers) (loginResult : Except PyExc String)
    (st : GateSettings) (c : ClientState) (name : String)
    (args : List (String × Json)) : CallOutcome :=
  if AUTH_TOOL_NAMES.contains name then
    runHandler h.auth name args c
  else if AUTHENTICATED_TOOL_NAMES.contains name then
    match ensure_authenticated c st loginResult with
    | (some err, c2) => ⟨err, false, c2⟩
    | (none, c2) =>
      if PROJECTS_TOOL_NAMES.contains name then runHandler h.projects name args c2
      else if CONFIGURATION_TOOL_NAMES.contains name then runHandler h.configuration name args c2
      else if EXECUTION_TOOL_NAMES.contains name then runHandler h.execution name args c2
      else if CAPTURE_TOOL_NAMES.contains name then runHandler h.capture name args c2
      else if VARIABLES_TOOL_NAMES.contains name then runHandler h.vars name args c2
      else if TRANSITIONS_TOOL_NAMES.contains name then runHandler h.transitions name args c2
      else ⟨.obj [("error", .str ("Unknown tool: " ++ name))], false, c2⟩
  else
    ⟨.obj [("error", .str ("Unknown tool: " ++ name))], false, c⟩

/-- The handler group the router's dispatch chain selects for a tool
name, mirroring the if/elif chain inside the authenticated branch of
`call_tool` in the same order (`none` when no group matches). -/
def routedHandler (h : Handlers) (name : String) : Option HandlerFn :=
  if PROJECTS_TOOL_NAMES.contains name then some h.projects
  else if CONFIGURATION_TOOL_NAMES.contains name then some h.configuration
  else if EXECUTION_TOOL_NAMES.contains name then some h.execution
  else if CAPTURE_TOOL_NAMES.contains name then some h.capture
  else if VARIABLES_TOOL_NAMES.contains name then some h.vars
  else if TRANSITIONS_TOOL_NAMES.contains name then some h.transitions
  else none

/-! ## Derived notions and helper lemmas -/

/-- Whether a value is a Python dict. -/
def isObj : Json → Bool
  | .obj _ => true
  | _ => false

/-- Whether a record matches a target id the way the scans compare:
`t.get("id") == target` (false for non-dict values). -/
def idMatches (target : Json) : Json → Bool
  | .obj fs => pyEq ((lookupField fs "id").getD .null) target
  | _ => false

/-- Whether a client-layer result is a raised `ValidationError`. -/
def isValidationFailure : Except PyExc Json → Bool
  | .error (.validationError _ _) => true
  | _ => false

/-- Lowercase hexadecimal digit. -/
def isLowerHexChar (c : Char) : Bool :=
  (decide ('0' ≤ c) && decide (c ≤ '9')) || (decide ('a' ≤ c) && decide (c ≤ 'f'))

/-- Exactly eight lowercase hexadecimal digits
(the shape of `uuid.uuid4().hex[:8]`). -/
def isLowerHex8 (s : String) : Bool :=
  s.data.length == 8 && s.data.all isLowerHexChar

/-- The id pattern claimed for created states: the literal prefix
`state-` followed by exactly eight lowercase hex characters. -/
def isStateIdPattern (s : String) : Bool :=
  s.data.take 6 == "state-".data &&
  (s.data.drop 6).length == 8 && (s.data.drop 6).all isLowerHexChar

/-- A handler environment whose groups all return an empty result dict,
used to instantiate router facts at concrete inputs. -/
def trivialHandlers : Handlers where
  auth := fun _ _ c => (.ok [], c)
  projects := fun _ _ c => (.ok [], c)
  configuration := fun _ _ c => (.ok [], c)
  execution := fun _ _ c => (.ok [], c)
  capture := fun _ _ c => (.ok [], c)
  vars := fun _ _ c => (.ok [], c)
  transitions := fun _ _ c => (.ok [], c)

/-- A handler environment whose groups all raise, exercising the
router's exception boundary for every group. -/
def failingHandlers : Handlers where
  auth := fun _ _ c => (.error (.valueError "boom"), c)
  projects := fun _ _ c => (.error (.valueError "boom"), c)
  configuration := fun _ _ c => (.error (.valueError "boom"), c)
  execution := fun _ _ c => (.error (.valueError "boom"), c)
  capture := fun _ _ c => (.error (.valueError "boom"), c)
  vars := fun _ _ c => (.error (.valueError "boom"), c)
  transitions := fun _ _ c => (.error (.valueError "boom"), c)

theorem lookupField_setField_self (c : List (String × Json)) (k : String) (v : Json) :
    lookupField (setField c k v) k = some v := by
  induction c with
  | nil => simp [setField, lookupField]
  | cons hd tl ih =>
    obtain ⟨k2, w⟩ := hd
    by_cases h : k2 = k
    · subst h
      simp [setField, lookupField]
    · have hb : (k2 == k) = false := by simpa using h
      simp [setField, lookupField, hb, ih]

theorem pyFilterNotId_eq_filter (target : Json) (ts : List Json)
    (h : ∀ t ∈ ts, isObj t = true) :
    pyFilterNotId ts target = .ok (ts.filter (fun t => !(idMatches target t))) := by
  induction ts with
  | nil => simp [pyFilterNotId]
  | cons hd tl ih =>
    have hhd : isObj hd = true := h hd (List.mem_cons_self hd tl)
    have htl : ∀ t ∈ tl, isObj t = true := fun t ht => h t (List.mem_cons_of_mem hd ht)
    match hd, hhd with
    | .obj fs, _ =>
      rw [pyFilterNotId, ih htl]
      by_cases hm : pyEq ((lookupField fs "id").getD .null) target = true
      · simp [hm, List.filter_cons, idMatches]
      · have hm2 : pyEq ((lookupField fs "id").getD .null) target = false := by
          simpa using hm
        simp [hm2, List.filter_cons, idMatches]

theorem pyScanReplace_none (target new : Json) (ws : List Json)
    (h : ∀ t ∈ ws, isObj t = true ∧ idMatches target t = false) :
    pyScanReplace ws target new = .ok none := by
  induction ws with
  | nil => simp [pyScanReplace]
  | cons hd tl ih =>
    have hhd := h hd (List.mem_cons_self hd tl)
    have htl : ∀ t ∈ tl, isObj t = true ∧ idMatches target t = false :=
      fun t ht => h t (List.mem_cons_of_mem hd ht)
    match hd, hhd with
    | .obj fs, ⟨_, hne⟩ =>
      have hne2 : pyEq ((lookupField fs "id").getD .null) target = false := by
        simpa [idMatches] using hne
      rw [pyScanReplace, ih htl]
      simp [hne2]

theorem filter_length_lt_of_mem_not {α : Type} (p : α → Bool) (l : List α)
    (x : α) (hx : x ∈ l) (hp : p x = false) :
    (l.filter p).length < l.length := by
  induction l with
  | nil => cases hx
  | cons hd tl ih =>
    rcases List.mem_cons.mp hx with h | h
    · subst h
      have : (tl.filter p).length ≤ tl.length := List.length_filter_le p tl
      simp [List.filter_cons, hp]
      omega
    · by_cases hph : p hd = true
      · simpa [List.filter_cons, hph] using ih h
      · have hph2 : p hd = false := by simpa using hph
        have : (tl.filter p).length ≤ tl.length := List.length_filter_le p tl
        simp [List.filter_cons, hph2]
        omega

/-! ## Claim theorems -/

/-- C7: for every HTTP response with status 204, or any response with
status below 400 whose body is empty, the request executor returns an
empty mapping, not null and not an error. -/
theorem c7_empty_body_returns_empty_mapping (path : String) (r : HttpResponse)
    (h : r.status = 204 ∨ (r.status < 400 ∧ r.text = "")) :
    request path (.ok r) = .ok (.obj []) := by
  rcases h with h204 | ⟨hlt, htext⟩
  · simp [request, h204]
  · have h1 : r.status ≠ 401 := by omega
    have h2 : r.status ≠ 404 := by omega
    have h3 : r.status ≠ 422 := by omega
    have h4 : ¬(400 ≤ r.status) := by omega
    simp [request, h1, h2, h3, h4, htext]

/-- Witness for C7 at a concrete 204 response with a nonempty body. -/
theorem c7_witness :
    (204 = 204 ∨ (204 < 400 ∧ "x" = "")) ∧
    request "/api/v1/projects" (.ok ⟨204, "x", none⟩) = .ok (.obj []) :=
  ⟨Or.inl rfl, c7_empty_body_returns_empty_mapping "/api/v1/projects" ⟨204, "x", none⟩ (Or.inl rfl)⟩

/-- C6 counterexample: a 422 response whose body is not JSON does not
yield a ValidationFailure; `response.json()` raises a JSON decode error
that escapes the 422 branch unguarded. -/
theorem c6_counterexample :
    request "/api/v1/projects" (.ok ⟨422, "not json", none⟩) =
      .error (.jsonDecodeError jsonDecodeMsg) ∧
    isValidationFailure (request "/api/v1/projects" (.ok ⟨422, "not json", none⟩)) = false :=
  ⟨rfl, rfl⟩

/-- C6 as amended: for a 422 response whose body parses as a JSON
object, the executor raises ValidationFailure whose message carries the
`detail` field when present and the generic phrase otherwise; for a 422
response whose body is not JSON it instead raises a JSON decode error,
not a ValidationFailure. -/
theorem c6_422_validation_error (path : String) (r : HttpResponse)
    (h422 : r.status = 422) :
    (∀ fs, r.jsonBody = some (.obj fs) →
      request path (.ok r) = .error (.validationError
        ("Validation error: " ++ pyStr ((lookupField fs "detail").getD (.str "Validation error")))
        (some 422))) ∧
    (r.jsonBody = none →
      request path (.ok r) = .error (.jsonDecodeError jsonDecodeMsg)) := by
  constructor
  · intro fs hb
    simp [request, h422, hb]
  · intro hb
    simp [request, h422, hb]

/-- Witness for C6 (amended) at a 422 response carrying a detail field. -/
theorem c6_witness :
    request "/p" (.ok ⟨422, "", some (.obj [("detail", .str "bad field")])⟩) =
      .error (.validationError
        ("Validation error: " ++
          pyStr ((lookupField [("detail", Json.str "bad field")] "detail").getD (.str "Validation error")))
        (some 422)) :=
  (c6_422_validation_error "/p" ⟨422, "", some (.obj [("detail", .str "bad field")])⟩ rfl).1
    [("detail", Json.str "bad field")] rfl

/-- C10: a failed login (non-200 response or transport failure) leaves
the stored session token unchanged, so the authentication status
observed before the attempt is preserved. -/
theorem c10_login_failure_preserves_token (c : ClientState) (o : LoginOutcome)
    (e : PyExc) (h : (login c o).1 = .error e) :
    (login c o).2 = c ∧ isAuthenticated (login c o).2 = isAuthenticated c := by
  have h2 : (login c o).2 = c := by
    cases o with
    | transportError m => rfl
    | response r =>
      by_cases hs : r.status = 200
      · cases hp : parseAuthTokens r.jsonBody with
        | error e2 => simp [login, hs, hp]
        | ok t =>
          exfalso
          simp [login, hs, hp] at h
      · simp [login, hs]
  exact ⟨h2, by rw [h2]⟩

/-- Witness for C10 at a concrete rejected login (status 500). -/
theorem c10_witness :
    (login ⟨some "tok"⟩ (.response ⟨500, "bad", none⟩)).2 = ⟨some "tok"⟩ ∧
    isAuthenticated (login ⟨some "tok"⟩ (.response ⟨500, "bad", none⟩)).2 =
      isAuthenticated ⟨some "tok"⟩ :=
  c10_login_failure_preserves_token ⟨some "tok"⟩ (.response ⟨500, "bad", none⟩)
    (.authenticationError "Login failed: bad" (some 401)) rfl

/-- C9: an Add of a record to the workflows array followed by a List
(with no intervening mutation) succeeds and yields the old array plus
the input record at the end; in particular the list contains a record
whose id and remaining fields equal the input's. -/
theorem c9_add_then_list_roundtrip (b : Backend) (r : Json) (ws : List Json)
    (hw : getArrField b.configuration "workflows" = .ok ws) :
    (add_workflow b r).1 = .ok () ∧
    get_workflows (add_workflow b r).2 = .arr (ws ++ [r]) ∧
    r ∈ ws ++ [r] := by
  have hcfg : add_workflow_config b.configuration r =
      .ok (setField b.configuration "workflows" (.arr (ws ++ [r]))) := by
    simp [add_workflow_config, hw]
  refine ⟨?_, ?_, by simp⟩
  · simp [add_workflow, hcfg]
  · simp [add_workflow, hcfg, get_workflows, update_project, lookupField_setField_self]

/-- Witness for C9 on an empty project and a one-field record. -/
theorem c9_witness :
    (add_workflow ⟨[], 0⟩ (.obj [("id", .str "w1")])).1 = .ok () ∧
    get_workflows (add_workflow ⟨[], 0⟩ (.obj [("id", .str "w1")])).2 =
      .arr [.obj [("id", .str "w1")]] ∧
    Json.obj [("id", .str "w1")] ∈ [Json.obj [("id", .str "w1")]] := by
  have h := c9_add_then_list_roundtrip ⟨[], 0⟩ (.obj [("id", .str "w1")]) [] rfl
  simpa using h

/-- C5: when two Adds to the same project's workflows array both read
the configuration before either writes, both writes are issued but only
the second writer's record is persisted: the final array is the base
array plus the second record, and the first record is absent. -/
theorem c5_concurrent_add_loses_first_record (b : Backend) (r1 r2 : Json)
    (ws : List Json)
    (hw : getArrField b.configuration "workflows" = .ok ws)
    (h1 : r1 ∉ ws) (h2 : r1 ≠ r2) :
    lookupField (race_add_workflows b r1 r2).2.configuration "workflows" =
      some (.arr (ws ++ [r2])) ∧
    r1 ∉ ws ++ [r2] ∧
    (race_add_workflows b r1 r2).2.updateProjectCalls = b.updateProjectCalls + 2 := by
  have hc1 : add_workflow_config b.configuration r1 =
      .ok (setField b.configuration "workflows" (.arr (ws ++ [r1]))) := by
    simp [add_workflow_config, hw]
  have hc2 : add_workflow_config b.configuration r2 =
      .ok (setField b.configuration "workflows" (.arr (ws ++ [r2]))) := by
    simp [add_workflow_config, hw]
  refine ⟨?_, ?_, ?_⟩
  · simp [race_add_workflows, hc1, hc2, update_project, lookupField_setField_self]
  · intro hmem
    rcases List.mem_append.mp hmem with h | h
    · exact h1 h
    · exact h2 (List.mem_singleton.mp h)
  · simp [race_add_workflows, hc1, hc2, update_project]

/-- Witness for C5 with two distinct one-field records on an empty
project. -/
theorem c5_witness :
    lookupField (race_add_workflows ⟨[], 0⟩ (.obj [("id", .str "w1")])
      (.obj [("id", .str "w2")])).2.configuration "workflows" =
      some (.arr [.obj [("id", .str "w2")]]) ∧
    Json.obj [("id", .str "w1")] ∉ [Json.obj [("id", .str "w2")]] ∧
    (race_add_workflows ⟨[], 0⟩ (.obj [("id", .str "w1")])
      (.obj [("id", .str "w2")])).2.updateProjectCalls = 2 := by
  have h := c5_concurrent_add_loses_first_record ⟨[], 0⟩
    (.obj [("id", .str "w1")]) (.obj [("id", .str "w2")]) [] rfl
    (by simp) (by simp)
  simpa using h

/-- C2: an Update of a workflow or state whose target id matches no
element of the corresponding array fails with NotFound and performs no
write: the returned backend equals the input backend, so no
update-project call was issued and the configuration document is
unchanged. -/
theorem c2_update_not_found_no_write (bw bs : Backend) (wid sid : String)
    (w s : Json) (ws ss : List Json)
    (hw : getArrField bw.configuration "workflows" = .ok ws)
    (hnow : ∀ t ∈ ws, isObj t = true ∧ idMatches (.str wid) t = false)
    (hs : getArrField bs.configuration "states" = .ok ss)
    (hnos : ∀ t ∈ ss, isObj t = true ∧ idMatches (.str sid) t = false) :
    update_workflow bw wid w =
      (.error (.notFoundError ("Workflow not found: " ++ wid) none), bw) ∧
    update_state bs sid s =
      (.error (.notFoundError ("State not found: " ++ sid) none), bs) := by
  have hsw : pyScanReplace ws (.str wid) w = .ok none := pyScanReplace_none _ _ _ hnow
  have hss : pyScanReplace ss (.str sid) s = .ok none := pyScanReplace_none _ _ _ hnos
  constructor
  · simp [update_workflow, hw, hsw]
  · simp [update_state, hs, hss]

/-- Witness for C2 on concrete one-element arrays without the target
ids. -/
theorem c2_witness :
    update_workflow ⟨[("workflows", .arr [.obj [("id", .str "w1")]])], 0⟩ "nope"
      (.obj [("id", .str "nope")]) =
      (.error (.notFoundError "Workflow not found: nope" none),
       ⟨[("workflows", .arr [.obj [("id", .str "w1")]])], 0⟩) ∧
    update_state ⟨[("states", .arr [.obj [("id", .str "s1")]])], 0⟩ "missing"
      (.obj [("id", .str "missing")]) =
      (.error (.notFoundError "State not found: missing" none),
       ⟨[("states", .arr [.obj [("id", .str "s1")]])], 0⟩) := by
  have h := c2_update_not_found_no_write
    ⟨[("workflows", .arr [.obj [("id", .str "w1")]])], 0⟩
    ⟨[("states", .arr [.obj [("id", .str "s1")]])], 0⟩
    "nope" "missing" (.obj [("id", .str "nope")]) (.obj [("id", .str "missing")])
    [.obj [("id", .str "w1")]] [.obj [("id", .str "s1")]]
    rfl (by decide) rfl (by decide)
  simpa using h

/-- C3: deleting the same id twice behaves asymmetrically by design.
On the transitions array (through the tool handler, which compares
lengths) the first call reports success and the second an explicit
not-found failure; on the workflows, states and images arrays the
client-layer delete succeeds both times as a silent no-op. -/
theorem c3_double_delete_asymmetry (b bw bs bi : Backend)
    (P tid wid sid iid : String) (ts ws ss img : List Json)
    (hP : P ≠ "") (htid : tid ≠ "")
    (ht : getArrField b.configuration "transitions" = .ok ts)
    (htobj : ∀ t ∈ ts, isObj t = true)
    (htmem : ∃ t ∈ ts, idMatches (.str tid) t = true)
    (hw : getArrField bw.configuration "workflows" = .ok ws)
    (hwobj : ∀ t ∈ ws, isObj t = true)
    (hs : getArrField bs.configuration "states" = .ok ss)
    (hsobj : ∀ t ∈ ss, isObj t = true)
    (hi : getArrField bi.configuration "images" = .ok img)
    (hiobj : ∀ t ∈ img, isObj t = true) :
    (delete_transition_tool true [("project_id", .str P), ("transition_id", .str tid)] b).1 =
      .obj [("success", .bool true), ("message", .str ("Deleted transition " ++ tid))] ∧
    (delete_transition_tool true [("project_id", .str P), ("transition_id", .str tid)]
        (delete_transition_tool true [("project_id", .str P), ("transition_id", .str tid)] b).2).1 =
      .obj [("success", .bool false), ("error", .str ("Transition not found: " ++ tid))] ∧
    (delete_workflow bw wid).1 = .ok () ∧
    (delete_workflow (delete_workflow bw wid).2 wid).1 = .ok () ∧
    (delete_state bs sid).1 = .ok () ∧
    (delete_state (delete_state bs sid).2 sid).1 = .ok () ∧
    (delete_image bi iid).1 = .ok () ∧
    (delete_image (delete_image bi iid).2 iid).1 = .ok () := by
  have hPf : optFalsy (some (Json.str P)) = false := by
    simp [optFalsy, Json.falsy]
    exact hP
  have htidf : optFalsy (some (Json.str tid)) = false := by
    simp [optFalsy, Json.falsy]
    exact htid
  have hfilter : pyFilterNotId ts (.str tid) =
      .ok (ts.filter (fun t => !(idMatches (.str tid) t))) :=
    pyFilterNotId_eq_filter _ _ htobj
  obtain ⟨x, hx, hxm⟩ := htmem
  have hlen : ((ts.filter (fun t => !(idMatches (.str tid) t))).length == ts.length) = false := by
    have := filter_length_lt_of_mem_not (fun t => !(idMatches (.str tid) t)) ts x hx
      (by simp [hxm])
    simp only [beq_eq_false_iff_ne]
    omega
  have hcall1 : delete_transition_tool true
      [("project_id", .str P), ("transition_id", .str tid)] b =
      (.obj [("success", .bool true), ("message", .str ("Deleted transition " ++ tid))],
       update_project b (setField b.configuration "transitions"
         (.arr (ts.filter (fun t => !(idMatches (.str tid) t)))))) := by
    simp [delete_transition_tool, lookupField, hPf, htidf, checkUUID, ht, hfilter,
      hlen, pyStr]
  have ht2 : getArrField (update_project b (setField b.configuration "transitions"
      (.arr (ts.filter (fun t => !(idMatches (.str tid) t)))))).configuration
      "transitions" = .ok (ts.filter (fun t => !(idMatches (.str tid) t))) := by
    simp [update_project, getArrField, lookupField_setField_self]
  have htobj2 : ∀ t ∈ ts.filter (fun t => !(idMatches (.str tid) t)), isObj t = true :=
    fun t h2 => htobj t (List.mem_of_mem_filter h2)
  have hff : (ts.filter (fun t => !(idMatches (.str tid) t))).filter
      (fun t => !(idMatches (.str tid) t)) =
      ts.filter (fun t => !(idMatches (.str tid) t)) := by
    apply List.filter_eq_self.mpr
    intro a ha
    exact (List.mem_filter.mp ha).2
  have hfilter2 : pyFilterNotId (ts.filter (fun t => !(idMatches (.str tid) t))) (.str tid) =
      .ok (ts.filter (fun t => !(idMatches (.str tid) t))) := by
    rw [pyFilterNotId_eq_filter _ _ htobj2, hff]
  have hcall2 : (delete_transition_tool true
      [("project_id", .str P), ("transition_id", .str tid)]
      (delete_transition_tool true [("project_id", .str P), ("transition_id", .str tid)] b).2).1 =
      .obj [("success", .bool false), ("error", .str ("Transition not found: " ++ tid))] := by
    rw [hcall1]
    simp [delete_transition_tool, lookupField, hPf, htidf, checkUUID, ht2, hfilter2, pyStr]
  have hwfilter : pyFilterNotId ws (.str wid) =
      .ok (ws.filter (fun t => !(idMatches (.str wid) t))) :=
    pyFilterNotId_eq_filter _ _ hwobj
  have hwdel1 : delete_workflow bw wid =
      (.ok (), update_project bw (setField bw.configuration "workflows"
        (.arr (ws.filter (fun t => !(idMatches (.str wid) t)))))) := by
    simp [delete_workflow, hw, hwfilter]
  have hw2 : getArrField (update_project bw (setField bw.configuration "workflows"
      (.arr (ws.filter (fun t => !(idMatches (.str wid) t)))))).configuration
      "workflows" = .ok (ws.filter (fun t => !(idMatches (.str wid) t))) := by
    simp [update_project, getArrField, lookupField_setField_self]
  have hwobj2 : ∀ t ∈ ws.filter (fun t => !(idMatches (.str wid) t)), isObj t = true :=
    fun t h2 => hwobj t (List.mem_of_mem_filter h2)
  have hwdel2 : (delete_workflow (delete_workflow bw wid).2 wid).1 = .ok () := by
    rw [hwdel1]
    simp [delete_workflow, hw2, pyFilterNotId_eq_filter _ _ hwobj2]
  have hsfilter : pyFilterNotId ss (.str sid) =
      .ok (ss.filter (fun t => !(idMatches (.str sid) t))) :=
    pyFilterNotId_eq_filter _ _ hsobj
  have hsdel1 : delete_state bs sid =
      (.ok (), update_project bs (setField bs.configuration "states"
        (.arr (ss.filter (fun t => !(idMatches (.str sid) t)))))) := by
    simp [delete_state, hs, hsfilter]
  have hs2 : getArrField (update_project bs (setField bs.configuration "states"
      (.arr (ss.filter (fun t => !(idMatches (.str sid) t)))))).configuration
      "states" = .ok (ss.filter (fun t => !(idMatches (.str sid) t))) := by
    simp [update_project, getArrField, lookupField_setField_self]
  have hsobj2 : ∀ t ∈ ss.filter (fun t => !(idMatches (.str sid) t)), isObj t = true :=
    fun t h2 => hsobj t (List.mem_of_mem_filter h2)
  have hsdel2 : (delete_state (delete_state bs sid).2 sid).1 = .ok () := by
    rw [hsdel1]
    simp [delete_state, hs2, pyFilterNotId_eq_filter _ _ hsobj2]
  have hifilter : pyFilterNotId img (.str iid) =
      .ok (img.filter (fun t => !(idMatches (.str iid) t))) :=
    pyFilterNotId_eq_filter _ _ hiobj
  have hidel1 : delete_image bi iid =
      (.ok (), update_project bi (setField bi.configuration "images"
        (.arr (img.filter (fun t => !(idMatches (.str iid) t)))))) := by
    simp [delete_image, hi, hifilter]
  have hi2 : getArrField (update_project bi (setField bi.configuration "images"
      (.arr (img.filter (fun t => !(idMatches (.str iid) t)))))).configuration
      "images" = .ok (img.filter (fun t => !(idMatches (.str iid) t))) := by
    simp [update_project, getArrField, lookupField_setField_self]
  have hiobj2 : ∀ t ∈ img.filter (fun t => !(idMatches (.str iid) t)), isObj t = true :=
    fun t h2 => hiobj t (List.mem_of_mem_filter h2)
  have hidel2 : (delete_image (delete_image bi iid).2 iid).1 = .ok () := by
    rw [hidel1]
    simp [delete_image, hi2, pyFilterNotId_eq_filter _ _ hiobj2]
  exact ⟨by rw [hcall1], hcall2, by rw [hwdel1], hwdel2,
    by rw [hsdel1], hsdel2, by rw [hidel1], hidel2⟩

/-- Witness for C3 on concrete single-record arrays (the images array
is absent, exercising the `.get(key, [])` default). -/
theorem c3_witness :
    (delete_transition_tool true [("project_id", .str "p"), ("transition_id", .str "t1")]
      ⟨[("transitions", .arr [.obj [("id", .str "t1")]])], 0⟩).1 =
      .obj [("success", .bool true), ("message", .str ("Deleted transition " ++ "t1"))] ∧
    (delete_transition_tool true [("project_id", .str "p"), ("transition_id", .str "t1")]
      (delete_transition_tool true [("project_id", .str "p"), ("transition_id", .str "t1")]
        ⟨[("transitions", .arr [.obj [("id", .str "t1")]])], 0⟩).2).1 =
      .obj [("success", .bool false), ("error", .str ("Transition not found: " ++ "t1"))] ∧
    (delete_workflow ⟨[("workflows", .arr [.obj [("id", .str "w1")]])], 0⟩ "w1").1 = .ok () ∧
    (delete_workflow (delete_workflow ⟨[("workflows", .arr [.obj [("id", .str "w1")]])], 0⟩ "w1").2 "w1").1 = .ok () ∧
    (delete_state ⟨[("states", .arr [.obj [("id", .str "s1")]])], 0⟩ "s1").1 = .ok () ∧
    (delete_state (delete_state ⟨[("states", .arr [.obj [("id", .str "s1")]])], 0⟩ "s1").2 "s1").1 = .ok () ∧
    (delete_image ⟨[], 0⟩ "i1").1 = .ok () ∧
    (delete_image (delete_image ⟨[], 0⟩ "i1").2 "i1").1 = .ok () :=
  c3_double_delete_asymmetry
    ⟨[("transitions", .arr [.obj [("id", .str "t1")]])], 0⟩
    ⟨[("workflows", .arr [.obj [("id", .str "w1")]])], 0⟩
    ⟨[("states", .arr [.obj [("id", .str "s1")]])], 0⟩
    ⟨[], 0⟩
    "p" "t1" "w1" "s1" "i1"
    [.obj [("id", .str "t1")]] [.obj [("id", .str "w1")]]
    [.obj [("id", .str "s1")]] []
    (by decide) (by decide)
    rfl (by decide) (by decide)
    rfl (by decide)
    rfl (by decide)
    rfl (by decide)

/-- C8: `create_state` with only a project id and the name
"Login Screen" builds the id `state-` + the eight freshly drawn
lowercase hex characters (matching the claimed pattern), inserts into
the states array a record with the defaults `isInitial: false`,
`isFinal: false`, `position: (0.0, 0.0)` and a null description, and
returns success with the new id and name (plus the handler's message
field). -/
theorem c8_create_state_defaults (b : Backend) (P hex : String) (ss : List Json)
    (hhex : isLowerHex8 hex = true) (hP : P ≠ "")
    (hs : getArrField b.configuration "states" = .ok ss) :
    (create_state_tool hex true
        [("project_id", .str P), ("name", .str "Login Screen")] b).1 =
      .obj [("success", .bool true),
            ("message", .str ("Created state \x27" ++ "Login Screen" ++ "\x27")),
            ("state", .obj [("id", .str ("state-" ++ hex)),
                            ("name", .str "Login Screen")])] ∧
    isStateIdPattern ("state-" ++ hex) = true ∧
    lookupField (create_state_tool hex true
        [("project_id", .str P), ("name", .str "Login Screen")] b).2.configuration
        "states" =
      some (.arr (ss ++ [.obj
        [("id", .str ("state-" ++ hex)),
         ("name", .str "Login Screen"),
         ("description", .null),
         ("identifyingImages", .arr []),
         ("position", .obj [("x", .fnum 0), ("y", .fnum 0)]),
         ("isInitial", .bool false),
         ("isFinal", .bool false)]])) := by
  have hPf : optFalsy (some (Json.str P)) = false := by
    simp [optFalsy, Json.falsy]
    exact hP
  have h6 : ("state-".data).length = 6 := rfl
  have htake : (("state-" ++ hex).data).take 6 = "state-".data := by
    rw [String.data_append, ← h6, List.take_left]
  have hdrop : (("state-" ++ hex).data).drop 6 = hex.data := by
    rw [String.data_append, ← h6, List.drop_left]
  have hpat : isStateIdPattern ("state-" ++ hex) = true := by
    simp only [isStateIdPattern, htake, hdrop]
    simpa [isLowerHex8] using hhex
  have hnm : optFalsy (some (Json.str "Login Screen")) = false := by decide
  refine ⟨?_, hpat, ?_⟩
  · simp [create_state_tool, lookupField, hPf, hnm, checkUUID, add_state, hs, pyStr]
  · simp [create_state_tool, lookupField, hPf, hnm, checkUUID, add_state, hs, pyStr,
      update_project, lookupField_setField_self]

/-- Witness for C8 with concrete hex digits on an empty project. -/
theorem c8_witness :
    (create_state_tool "0123abcd" true
        [("project_id", .str "p"), ("name", .str "Login Screen")] ⟨[], 0⟩).1 =
      .obj [("success", .bool true),
            ("message", .str ("Created state \x27" ++ "Login Screen" ++ "\x27")),
            ("state", .obj [("id", .str ("state-" ++ "0123abcd")),
                            ("name", .str "Login Screen")])] ∧
    isStateIdPattern ("state-" ++ "0123abcd") = true ∧
    lookupField (create_state_tool "0123abcd" true
        [("project_id", .str "p"), ("name", .str "Login Screen")] ⟨[], 0⟩).2.configuration
        "states" =
      some (.arr ([] ++ [.obj
        [("id", .str ("state-" ++ "0123abcd")),
         ("name", .str "Login Screen"),
         ("description", .null),
         ("identifyingImages", .arr []),
         ("position", .obj [("x", .fnum 0), ("y", .fnum 0)]),
         ("isInitial", .bool false),
         ("isFinal", .bool false)]])) :=
  c8_create_state_defaults ⟨[], 0⟩ "p" "0123abcd" [] (by decide) (by decide) rfl
theorem runHandler_result_obj (f : HandlerFn) (name : String)
    (args : List (String × Json)) (c : ClientState) :
    ∃ fs, (runHandler f name args c).result = .obj fs := by
  rcases hf : f name args c with ⟨res, c2⟩
  cases res with
  | ok r => exact ⟨r, by simp [runHandler, hf]⟩
  | error e =>
    exact ⟨[("success", .bool false), ("error", .str e.message)],
      by simp [runHandler, hf]⟩

theorem ensure_authenticated_error_shape (c : ClientState) (st : GateSettings)
    (lr : Except PyExc String) (j : Json) (c2 : ClientState)
    (h : ensure_authenticated c st lr = (some j, c2)) :
    ∃ msg, j = .obj [("success", .bool false), ("error", .str msg)] := by
  unfold ensure_authenticated at h
  by_cases hia : isAuthenticated c = true
  · simp [hia] at h
  · by_cases hcr : st.hasCredentials = true
    · cases lr with
      | ok t => simp [hia, hcr] at h
      | error e =>
        simp [hia, hcr] at h
        exact ⟨_, h.1.symm⟩
    · have hcr2 : st.hasCredentials = false := by simpa using hcr
      simp [hia, hcr2] at h
      exact ⟨_, h.1.symm⟩

theorem routedHandler_total (h : Handlers) (name : String)
    (hmem : name ∈ AUTHENTICATED_TOOL_NAMES) :
    ∃ f, routedHandler h name = some f := by
  by_cases p1 : name ∈ PROJECTS_TOOL_NAMES
  · exact ⟨h.projects, by simp [routedHandler, p1]⟩
  · by_cases p2 : name ∈ CONFIGURATION_TOOL_NAMES
    · exact ⟨h.configuration, by simp [routedHandler, p1, p2]⟩
    · by_cases p3 : name ∈ EXECUTION_TOOL_NAMES
      · exact ⟨h.execution, by simp [routedHandler, p1, p2, p3]⟩
      · by_cases p4 : name ∈ CAPTURE_TOOL_NAMES
        · exact ⟨h.capture, by simp [routedHandler, p1, p2, p3, p4]⟩
        · by_cases p5 : name ∈ VARIABLES_TOOL_NAMES
          · exact ⟨h.vars, by simp [routedHandler, p1, p2, p3, p4, p5]⟩
          · by_cases p6 : name ∈ TRANSITIONS_TOOL_NAMES
            · exact ⟨h.transitions, by simp [routedHandler, p1, p2, p3, p4, p5, p6]⟩
            · exfalso
              simp [AUTHENTICATED_TOOL_NAMES, List.mem_append,
                p1, p2, p3, p4, p5, p6] at hmem

theorem call_tool_routed (h : Handlers) (lr : Except PyExc String)
    (st : GateSettings) (c : ClientState) (name : String)
    (args : List (String × Json)) (f : HandlerFn) (c2 : ClientState)
    (h1 : name ∉ AUTH_TOOL_NAMES) (h2 : name ∈ AUTHENTICATED_TOOL_NAMES)
    (hens : ensure_authenticated c st lr = (none, c2))
    (hrt : routedHandler h name = some f) :
    call_tool h lr st c name args = runHandler f name args c2 := by
  by_cases p1 : name ∈ PROJECTS_TOOL_NAMES
  · have hf : h.projects = f := by simpa [routedHandler, p1] using hrt
    simp [call_tool, h1, h2, hens, p1, hf]
  · by_cases p2 : name ∈ CONFIGURATION_TOOL_NAMES
    · have hf : h.configuration = f := by simpa [routedHandler, p1, p2] using hrt
      simp [call_tool, h1, h2, hens, p1, p2, hf]
    · by_cases p3 : name ∈ EXECUTION_TOOL_NAMES
      · have hf : h.execution = f := by simpa [routedHandler, p1, p2, p3] using hrt
        simp [call_tool, h1, h2, hens, p1, p2, p3, hf]
      · by_cases p4 : name ∈ CAPTURE_TOOL_NAMES
        · have hf : h.capture = f := by simpa [routedHandler, p1, p2, p3, p4] using hrt
          simp [call_tool, h1, h2, hens, p1, p2, p3, p4, hf]
        · by_cases p5 : name ∈ VARIABLES_TOOL_NAMES
          · have hf : h.vars = f := by simpa [routedHandler, p1, p2, p3, p4, p5] using hrt
            simp [call_tool, h1, h2, hens, p1, p2, p3, p4, p5, hf]
          · by_cases p6 : name ∈ TRANSITIONS_TOOL_NAMES
            · have hf : h.transitions = f := by
                simpa [routedHandler, p1, p2, p3, p4, p5, p6] using hrt
              simp [call_tool, h1, h2, hens, p1, p2, p3, p4, p5, p6, hf]
            · exfalso
              simp [routedHandler, p1, p2, p3, p4, p5, p6] at hrt

theorem authed_tool_not_auth_exempt (name : String)
    (h : name ∈ AUTHENTICATED_TOOL_NAMES) : name ∉ AUTH_TOOL_NAMES := by
  have hall : ∀ n ∈ AUTHENTICATED_TOOL_NAMES, n ∉ AUTH_TOOL_NAMES := by decide
  exact hall name h

/-- C1: calling any authentication-required tool with no session token
and no configured credentials returns the structured failure directing
the caller to `auth_login`, leaves the client unchanged, and never
invokes the underlying handler (the outcome is the same for every
handler environment, with `handlerInvoked = false`). -/
theorem c1_gate_blocks_unauthenticated (h : Handlers) (lr : Except PyExc String)
    (st : GateSettings) (c : ClientState) (name : String)
    (args : List (String × Json))
    (hmem : AUTHENTICATED_TOOL_NAMES.contains name = true)
    (htok : c.accessToken = none) (hcred : st.hasCredentials = false) :
    call_tool h lr st c name args =
      ⟨.obj [("success", .bool false),
             ("error", .str "Not authenticated. Use auth_login first.")],
       false, c⟩ := by
  have hmem2 : name ∈ AUTHENTICATED_TOOL_NAMES := by simpa using hmem
  have hauth := authed_tool_not_auth_exempt name hmem2
  have hia : isAuthenticated c = false := by simp [isAuthenticated, htok]
  simp [call_tool, hauth, hmem2, ensure_authenticated, hia, hcred]

/-- Witness for C1 at the `list_projects` tool. -/
theorem c1_witness :
    AUTHENTICATED_TOOL_NAMES.contains "list_projects" = true ∧
    call_tool trivialHandlers (.ok "t") ⟨false⟩ ⟨none⟩ "list_projects" [] =
      ⟨.obj [("success", .bool false),
             ("error", .str "Not authenticated. Use auth_login first.")],
       false, ⟨none⟩⟩ :=
  ⟨by decide,
   c1_gate_blocks_unauthenticated trivialHandlers (.ok "t") ⟨false⟩ ⟨none⟩
     "list_projects" [] (by decide) rfl rfl⟩

/-- C4 counterexample: the unknown-tool result is
`{"error": "Unknown tool: ..."}` with no `success` key at all, so not
every failure result carries `success: false`. -/
theorem c4_counterexample :
    (call_tool trivialHandlers (.ok "t") ⟨false⟩ ⟨none⟩ "bogus" []).result =
      .obj [("error", .str "Unknown tool: bogus")] ∧
    lookupField [("error", Json.str "Unknown tool: bogus")] "success" = none := by
  constructor <;> rfl

/-- C4 as amended: the router always returns a JSON object and never
propagates an exception (it is a total function into `CallOutcome`);
every failure the router itself produces carries `success: false` plus
an `error` string — an authentication-gate failure, a raised auth-group
handler exception, and a raised handler exception in any of the six
authenticated groups (which cover every authenticated tool name, as the
routing-totality conjunct states); success results are the handler's
dict returned verbatim, so they are signaled by `success: true` (or a
domain-specific key such as `authenticated`) exactly as the handler
emits them; the unknown-tool case, however, returns an object holding
only the `error` string, without a `success` key. -/
theorem c4_router_result_envelope (h : Handlers) (lr : Except PyExc String)
    (st : GateSettings) (c : ClientState) (name : String)
    (args : List (String × Json)) :
    (∃ fs, (call_tool h lr st c name args).result = .obj fs) ∧
    (name ∉ AUTH_TOOL_NAMES → name ∉ AUTHENTICATED_TOOL_NAMES →
      (call_tool h lr st c name args).result =
        .obj [("error", .str ("Unknown tool: " ++ name))]) ∧
    (name ∈ AUTHENTICATED_TOOL_NAMES → ∃ f, routedHandler h name = some f) ∧
    (∀ j c2, name ∉ AUTH_TOOL_NAMES → name ∈ AUTHENTICATED_TOOL_NAMES →
      ensure_authenticated c st lr = (some j, c2) →
      ∃ msg, (call_tool h lr st c name args).result =
        .obj [("success", .bool false), ("error", .str msg)]) ∧
    (∀ e c2, name ∈ AUTH_TOOL_NAMES → h.auth name args c = (.error e, c2) →
      (call_tool h lr st c name args).result =
        .obj [("success", .bool false), ("error", .str e.message)]) ∧
    (∀ f c2 e c3, name ∉ AUTH_TOOL_NAMES → name ∈ AUTHENTICATED_TOOL_NAMES →
      ensure_authenticated c st lr = (none, c2) →
      routedHandler h name = some f → f name args c2 = (.error e, c3) →
      (call_tool h lr st c name args).result =
        .obj [("success", .bool false), ("error", .str e.message)]) ∧
    (∀ r c2, name ∈ AUTH_TOOL_NAMES → h.auth name args c = (.ok r, c2) →
      (call_tool h lr st c name args).result = .obj r) ∧
    (∀ f c2 r c3, name ∉ AUTH_TOOL_NAMES → name ∈ AUTHENTICATED_TOOL_NAMES →
      ensure_authenticated c st lr = (none, c2) →
      routedHandler h name = some f → f name args c2 = (.ok r, c3) →
      (call_tool h lr st c name args).result = .obj r) := by
  refine ⟨?_, ?_, ?_, ?_, ?_, ?_, ?_, ?_⟩
  · by_cases h1 : name ∈ AUTH_TOOL_NAMES
    · have := runHandler_result_obj h.auth name args c
      simpa [call_tool, h1] using this
    · by_cases h2 : name ∈ AUTHENTICATED_TOOL_NAMES
      · rcases hens : ensure_authenticated c st lr with ⟨opt, c2⟩
        cases opt with
        | some j =>
          obtain ⟨msg, hj⟩ := ensure_authenticated_error_shape c st lr j c2 hens
          exact ⟨[("success", .bool false), ("error", .str msg)],
            by simp [call_tool, h1, h2, hens, hj]⟩
        | none =>
          obtain ⟨f, hrt⟩ := routedHandler_total h name h2
          rw [call_tool_routed h lr st c name args f c2 h1 h2 hens hrt]
          exact runHandler_result_obj f name args c2
      · exact ⟨[("error", .str ("Unknown tool: " ++ name))],
          by simp [call_tool, h1, h2]⟩
  · intro h1 h2
    simp [call_tool, h1, h2]
  · exact routedHandler_total h name
  · intro j c2 h1 h2 hens
    obtain ⟨msg, hj⟩ := ensure_authenticated_error_shape c st lr j c2 hens
    exact ⟨msg, by simp [call_tool, h1, h2, hens, hj]⟩
  · intro e c2 hb hauth
    simp [call_tool, hb, runHandler, hauth]
  · intro f c2 e c3 h1 h2 hens hrt hfe
    rw [call_tool_routed h lr st c name args f c2 h1 h2 hens hrt]
    simp [runHandler, hfe]
  · intro r c2 hb hauth
    simp [call_tool, hb, runHandler, hauth]
  · intro f c2 r c3 h1 h2 hens hrt hfe
    rw [call_tool_routed h lr st c name args f c2 h1 h2 hens hrt]
    simp [runHandler, hfe]

/-- Witness for C4 (amended) at concrete inputs: the unknown-tool
shape, a gate failure envelope, a raised auth-group handler exception,
a raised authenticated-group (transitions) handler exception behind a
passing gate, and the verbatim success pass-through. -/
theorem c4_witness :
    (call_tool trivialHandlers (.ok "t") ⟨false⟩ ⟨none⟩ "bogus2" []).result =
      .obj [("error", .str ("Unknown tool: " ++ "bogus2"))] ∧
    (∃ msg, (call_tool trivialHandlers (.ok "t") ⟨false⟩ ⟨none⟩ "list_projects" []).result =
      .obj [("success", .bool false), ("error", .str msg)]) ∧
    (call_tool failingHandlers (.ok "t") ⟨false⟩ ⟨none⟩ "auth_login" []).result =
      .obj [("success", .bool false), ("error", .str (PyExc.valueError "boom").message)] ∧
    (call_tool failingHandlers (.ok "t") ⟨false⟩ ⟨some "tok"⟩ "delete_transition" []).result =
      .obj [("success", .bool false), ("error", .str (PyExc.valueError "boom").message)] ∧
    (call_tool trivialHandlers (.ok "t") ⟨false⟩ ⟨some "tok"⟩ "create_state" []).result =
      .obj [] :=
  ⟨(c4_router_result_envelope trivialHandlers (.ok "t") ⟨false⟩ ⟨none⟩ "bogus2" []).2.1
      (by decide) (by decide),
   (c4_router_result_envelope trivialHandlers (.ok "t") ⟨false⟩ ⟨none⟩ "list_projects" []).2.2.2.1
      (.obj [("success", .bool false),
             ("error", .str "Not authenticated. Use auth_login first.")]) ⟨none⟩
      (by decide) (by decide) rfl,
   (c4_router_result_envelope failingHandlers (.ok "t") ⟨false⟩ ⟨none⟩ "auth_login" []).2.2.2.2.1
      (.valueError "boom") ⟨none⟩ (by decide) rfl,
   (c4_router_result_envelope failingHandlers (.ok "t") ⟨false⟩ ⟨some "tok"⟩ "delete_transition" []).2.2.2.2.2.1
      failingHandlers.transitions ⟨some "tok"⟩ (.valueError "boom") ⟨some "tok"⟩
      (by decide) (by decide) rfl rfl rfl,
   (c4_router_result_envelope trivialHandlers (.ok "t") ⟨false⟩ ⟨some "tok"⟩ "create_state" []).2.2.2.2.2.2.2
      trivialHandlers.configuration ⟨some "tok"⟩ [] ⟨some "tok"⟩
      (by decide) (by decide) rfl rfl rfl⟩
